import Mathlib

/-!
# The close command of `pkg/cmd/issue/close/close.go`

A shallow embedding of `closeRun` and `apiClose`.  The functions the command calls in
other packages (`shared.IssueFromArgWithFields`, `prShared.CommentableRun`,
`api.PullRequestClose`, the GraphQL client's `Mutate`) and the `HttpClient` function of the
options are parameters: each of them is an arbitrary function of the state `σ` of the world
outside the command (the remote service, the network, the configuration).  Every call the
command makes to one of them is appended, with its arguments, to a call trace, and every
`fmt.Fprintf` to `opts.IO.ErrOut` is appended to the list of writes of that stream.

The only test `closeRun` makes on the state of the item is `issue.State == "CLOSED"`: an open
item is an item whose `State` is not "CLOSED", which covers `State = "OPEN"`.
-/

namespace Close

/-- Go `error` values.  A returned `error` is an `Option Error`, `none` being `nil`. -/
abbrev Error := String

/-- The `*http.Client` handle returned by `opts.HttpClient()`. -/
structure HttpClient where
  handle : Nat
deriving DecidableEq, Repr

/-- The `ghrepo.Interface` value: its three accessors. -/
structure Repo where
  RepoOwner : String
  RepoName : String
  RepoHost : String
deriving DecidableEq, Repr

/-- Modelled from the spec: the declaration of `api.Issue` is outside `src/`.  `ID`, `Number`,
`Title` and `State` are the fields `closeRun` and `apiClose` read (the identity, number, title
and state of the spec's tracked item); `IsPullRequest` is the answer of the method
`issue.IsPullRequest()`, the spec's kind of the item (`true` for a pull-request-like item). -/
structure Issue where
  ID : String
  Number : Int
  Title : String
  State : String
  IsPullRequest : Bool
deriving DecidableEq, Repr

/-- The colour functions of `iostreams.ColorScheme` that `closeRun` uses. -/
structure ColorScheme where
  Yellow : String → String
  Red : String → String
  SuccessIconWithColor : (String → String) → String

/-- The part of `iostreams.IOStreams` that does not change: `ColorScheme()`.  The writes to
`ErrOut` are kept in the run state. -/
structure IOStreams where
  ColorScheme : ColorScheme

/-- The constant of `prShared.InputType` that `closeRun` uses. -/
inductive InputType where
  | InputTypeInline
deriving DecidableEq, Repr

/-- The fields of `prShared.CommentableOptions` that `closeRun` sets (lines 78-86). -/
structure CommentableOptions (σ : Type) where
  Body : String
  HttpClient : σ → Except Error HttpClient × σ
  InputType : InputType
  Quiet : Bool
  RetrieveCommentable : Unit → Except Error (Issue × Repo)

/-- The fields of `CloseOptions` that `closeRun` reads (`Config` is never read).  `IOStreams` is
the field `IO` of the source. -/
structure CloseOptions (σ : Type) where
  HttpClient : σ → Except Error HttpClient × σ
  IOStreams : IOStreams
  BaseRepo : σ → Except Error Repo × σ
  SelectorArg : String
  Comment : String

/-- The literal `githubv4.CloseIssueInput{IssueID: issue.ID}` of `apiClose`: the one field the
literal sets. -/
structure CloseIssueInput where
  IssueID : String
deriving DecidableEq, Repr

/-- The shape of a Go struct used as a GraphQL selection: a field has a name, an optional
`graphql` tag and a type, which is the scalar `githubv4.ID` or a nested struct. -/
inductive GoType where
  | ID : GoType
  | struct : List (String × Option String × GoType) → GoType

/-- The functions of other packages that `closeRun` and `apiClose` call, as functions of the
state of the outside world. -/
structure Collaborators (σ : Type) where
  IssueFromArgWithFields : HttpClient → (σ → Except Error Repo × σ) → String → List String →
    σ → Except Error (Issue × Repo) × σ
  CommentableRun : CommentableOptions σ → σ → Option Error × σ
  PullRequestClose : HttpClient → Repo → String → σ → Option Error × σ
  Mutate : HttpClient → String → String → GoType → List (String × CloseIssueInput) →
    σ → Option Error × σ

/-- One call of the command to a collaborator, with the arguments of the call. -/
inductive Call (σ : Type) where
  | HttpClient : Call σ
  | IssueFromArgWithFields : HttpClient → (σ → Except Error Repo × σ) → String → List String →
      Call σ
  | CommentableRun : CommentableOptions σ → Call σ
  | PullRequestClose : HttpClient → Repo → String → Call σ
  | Mutate : HttpClient → String → String → GoType → List (String × CloseIssueInput) → Call σ

/-- A call that posts a comment. -/
def Call.isCommentPost {σ : Type} : Call σ → Bool
  | .CommentableRun _ => true
  | _ => false

/-- A call to one of the two close transports. -/
def Call.isCloseTransport {σ : Type} : Call σ → Bool
  | .PullRequestClose _ _ _ => true
  | .Mutate _ _ _ _ _ => true
  | _ => false

/-- The state of one run: the outside world, the calls made so far and the writes to
`opts.IO.ErrOut` so far. -/
structure Run (σ : Type) where
  world : σ
  trace : List (Call σ)
  ErrOut : List String

/-- A call to a collaborator: the call is recorded and the world becomes the one the
collaborator leaves. -/
def Run.call {σ : Type} (st : Run σ) (c : Call σ) (w : σ) : Run σ :=
  { st with world := w, trace := st.trace ++ [c] }

/-- One `fmt.Fprintf(opts.IO.ErrOut, ...)`: the formatted string is written to the stream. -/
def Run.Fprintf {σ : Type} (st : Run σ) (s : String) : Run σ :=
  { st with ErrOut := st.ErrOut ++ [s] }

/-- The leaf fields of a selection, each with the path of field names that leads to it. -/
def GoType.leaves : GoType → List (List String)
  | .ID => [[]]
  | .struct fs => leavesList fs
where
  leavesList : List (String × Option String × GoType) → List (List String)
    | [] => []
    | (n, _, t) :: rest => (t.leaves.map (fun p => n :: p)) ++ leavesList rest

/-- The variable `mutation` of `apiClose` (lines 108-114). -/
def mutation : GoType :=
  .struct [("CloseIssue", some "closeIssue(input: $input)",
    .struct [("Issue", none, .struct [("ID", none, .ID)])])]

/-- The map `variables` of `apiClose` (lines 116-120); `variables` is a reserved word here. -/
def mutationVariables (issue : Issue) : List (String × CloseIssueInput) :=
  [("input", { IssueID := issue.ID })]

/-- The function `apiClose` (lines 103-124). -/
def apiClose {σ : Type} (env : Collaborators σ) (httpClient : HttpClient) (repo : Repo)
    (issue : Issue) (st : Run σ) : Option Error × Run σ :=
  if issue.IsPullRequest then
    let r := env.PullRequestClose httpClient repo issue.ID st.world
    (r.1, st.call (.PullRequestClose httpClient repo issue.ID) r.2)
  else
    let r := env.Mutate httpClient repo.RepoHost "IssueClose" mutation (mutationVariables issue)
      st.world
    (r.1, st.call (.Mutate httpClient repo.RepoHost "IssueClose" mutation
      (mutationVariables issue)) r.2)

/-- The value `commentOpts` that `closeRun` builds (lines 78-86). -/
def commentOpts {σ : Type} (opts : CloseOptions σ) (issue : Issue) (baseRepo : Repo) :
    CommentableOptions σ :=
  { Body := opts.Comment
    HttpClient := opts.HttpClient
    InputType := .InputTypeInline
    Quiet := true
    RetrieveCommentable := fun _ => .ok (issue, baseRepo) }

/-- The function `closeRun` (lines 59-101).  The result is the returned `error` and the state
of the run at the return. -/
def closeRun {σ : Type} (env : Collaborators σ) (opts : CloseOptions σ) (st : Run σ) :
    Option Error × Run σ :=
  let cs := opts.IOStreams.ColorScheme
  let r1 := opts.HttpClient st.world
  let st1 := st.call .HttpClient r1.2
  match r1.1 with
  | .error err => (some err, st1)
  | .ok httpClient =>
    let fields := ["id", "number", "title", "state"]
    let r2 := env.IssueFromArgWithFields httpClient opts.BaseRepo opts.SelectorArg fields
      st1.world
    let st2 := st1.call (.IssueFromArgWithFields httpClient opts.BaseRepo opts.SelectorArg fields)
      r2.2
    match r2.1 with
    | .error err => (some err, st2)
    | .ok (issue, baseRepo) =>
      if issue.State = "CLOSED" then
        (none, st2.Fprintf (cs.Yellow "!" ++ " Issue #" ++ toString issue.Number ++ " (" ++
          issue.Title ++ ") is already closed\n"))
      else
        let r3 : Option Error × Run σ :=
          if opts.Comment ≠ "" then
            let r := env.CommentableRun (commentOpts opts issue baseRepo) st2.world
            (r.1, st2.call (.CommentableRun (commentOpts opts issue baseRepo)) r.2)
          else
            (none, st2)
        match r3.1 with
        | some err => (some err, r3.2)
        | none =>
          let r4 := apiClose env httpClient baseRepo issue r3.2
          match r4.1 with
          | some err => (some err, r4.2)
          | none =>
            (none, r4.2.Fprintf (cs.SuccessIconWithColor cs.Red ++ " Closed issue #" ++
              toString issue.Number ++ " (" ++ issue.Title ++ ")\n"))

/-! ## A small remote service for concrete runs -/

/-- A remote service holding tracked items and the comments posted on them. -/
structure Remote where
  items : List Issue
  comments : List (String × String)
deriving DecidableEq, Repr

/-- The remote service after the item of identity `id` was closed. -/
def Remote.close (w : Remote) (id : String) : Remote :=
  { w with items := w.items.map (fun i => if i.ID = id then { i with State := "CLOSED" } else i) }

/-- The repository of the concrete runs. -/
def exampleRepo : Repo := { RepoOwner := "OWNER", RepoName := "REPO", RepoHost := "github.com" }

/-- Collaborators over `Remote`.  The resolver looks the selector up among the numbers of the
items; a successful comment is stored; a successful close sets the state of the item to
"CLOSED".  `commentErr` and `closeErr`, when given, make the comment call and the close
calls fail with that error. -/
def exampleEnv (commentErr closeErr : Option Error) : Collaborators Remote :=
  { IssueFromArgWithFields := fun _ _ selector _ w =>
      match w.items.find? (fun i => toString i.Number == selector) with
      | some i => (.ok (i, exampleRepo), w)
      | none => (.error "issue not found", w)
    CommentableRun := fun o w =>
      match commentErr with
      | some e => (some e, w)
      | none =>
        match o.RetrieveCommentable () with
        | .ok (i, _) => (none, { w with comments := w.comments ++ [(i.ID, o.Body)] })
        | .error e => (some e, w)
    PullRequestClose := fun _ _ id w =>
      match closeErr with
      | some e => (some e, w)
      | none => (none, w.close id)
    Mutate := fun _ _ _ _ vars w =>
      match closeErr with
      | some e => (some e, w)
      | none =>
        match vars with
        | [(_, input)] => (none, w.close input.IssueID)
        | _ => (some "bad variables", w) }

/-- A colour scheme without colours. -/
def plainColors : ColorScheme :=
  { Yellow := fun s => s, Red := fun s => s, SuccessIconWithColor := fun f => f "✓" }

/-- Options of a concrete run with the given selector and comment. -/
def exampleOpts (selector comment : String) : CloseOptions Remote :=
  { HttpClient := fun w => (.ok ⟨0⟩, w)
    IOStreams := ⟨plainColors⟩
    BaseRepo := fun w => (.ok exampleRepo, w)
    SelectorArg := selector
    Comment := comment }

/-- An open issue. -/
def issue42 : Issue :=
  { ID := "I_42", Number := 42, Title := "Fix bug", State := "OPEN", IsPullRequest := false }

/-- An open pull request. -/
def pr7 : Issue :=
  { ID := "PR_7", Number := 7, Title := "Add feature", State := "OPEN", IsPullRequest := true }

/-- A pull request with the number of `pr7` and another identity. -/
def pr7other : Issue :=
  { ID := "PR_7_other", Number := 7, Title := "Add feature", State := "OPEN",
    IsPullRequest := true }

/-- A closed issue. -/
def issue3 : Issue :=
  { ID := "I_3", Number := 3, Title := "Old", State := "CLOSED", IsPullRequest := false }

/-- The remote service at the start of the concrete runs. -/
def exampleRemote : Remote := { items := [issue42, pr7, issue3], comments := [] }

/-- The start of a concrete run: nothing called, nothing written. -/
def exampleStart : Run Remote := { world := exampleRemote, trace := [], ErrOut := [] }

/-! ## The run of `closeRun`, case by case -/

/-- The run on an item the resolver reports closed. -/
theorem closeRun_closed_eq {σ : Type} (env : Collaborators σ) (opts : CloseOptions σ)
    (st : Run σ) (c : HttpClient) (w1 w2 : σ) (issue : Issue) (repo : Repo)
    (hc : opts.HttpClient st.world = (.ok c, w1))
    (hr : env.IssueFromArgWithFields c opts.BaseRepo opts.SelectorArg
      ["id", "number", "title", "state"] w1 = (.ok (issue, repo), w2))
    (hs : issue.State = "CLOSED") :
    closeRun env opts st = (none,
      { world := w2
        trace := st.trace ++ [.HttpClient, .IssueFromArgWithFields c opts.BaseRepo
          opts.SelectorArg ["id", "number", "title", "state"]]
        ErrOut := st.ErrOut ++ [opts.IOStreams.ColorScheme.Yellow "!" ++ " Issue #" ++
          toString issue.Number ++ " (" ++ issue.Title ++ ") is already closed\n"] }) := by
  simp [closeRun, hc, hr, hs, Run.call, Run.Fprintf]

/-- The run on an item that is not closed, when the comment step (if any) succeeds: the close
transport is called, and the run ends with what it returns. -/
theorem closeRun_open_eq {σ : Type} (env : Collaborators σ) (opts : CloseOptions σ)
    (st : Run σ) (c : HttpClient) (w1 w2 w3 w4 : σ) (issue : Issue) (repo : Repo)
    (r : Option Error)
    (hc : opts.HttpClient st.world = (.ok c, w1))
    (hr : env.IssueFromArgWithFields c opts.BaseRepo opts.SelectorArg
      ["id", "number", "title", "state"] w1 = (.ok (issue, repo), w2))
    (hs : issue.State ≠ "CLOSED")
    (hp : (if opts.Comment ≠ "" then env.CommentableRun (commentOpts opts issue repo) w2
      else (none, w2)) = (none, w3))
    (hx : (if issue.IsPullRequest then env.PullRequestClose c repo issue.ID w3
      else env.Mutate c repo.RepoHost "IssueClose" mutation
        [("input", { IssueID := issue.ID })] w3) = (r, w4)) :
    closeRun env opts st = (r,
      { world := w4
        trace := st.trace ++
          [.HttpClient, .IssueFromArgWithFields c opts.BaseRepo opts.SelectorArg
            ["id", "number", "title", "state"]] ++
          (if opts.Comment ≠ "" then [.CommentableRun (commentOpts opts issue repo)] else []) ++
          [if issue.IsPullRequest then Call.PullRequestClose c repo issue.ID
            else Call.Mutate c repo.RepoHost "IssueClose" mutation
              [("input", { IssueID := issue.ID })]]
        ErrOut := st.ErrOut ++
          (if r = none then [opts.IOStreams.ColorScheme.SuccessIconWithColor
              opts.IOStreams.ColorScheme.Red ++ " Closed issue #" ++ toString issue.Number ++
              " (" ++ issue.Title ++ ")\n"] else []) }) := by
  by_cases hb : opts.Comment = "" <;> cases hk : issue.IsPullRequest <;> cases r <;>
    simp [hb, hk] at hp hx <;>
    simp [closeRun, hc, hr, hs, hb, hk, hp, hx, apiClose, Run.call, Run.Fprintf,
      mutationVariables]

/-! ## The claims -/

/-- C1. When the resolver succeeds and returns an item whose state is "CLOSED", closeRun
returns nil, writes the "is already closed" line, and calls nothing after the resolver: the
trace gains no comment-post call and no close-transport call, whatever the comment body and
the collaborators are. -/
theorem closeRun_closed_item {σ : Type} (env : Collaborators σ) (opts : CloseOptions σ)
    (st : Run σ) (c : HttpClient) (w1 w2 : σ) (issue : Issue) (repo : Repo)
    (hc : opts.HttpClient st.world = (.ok c, w1))
    (hr : env.IssueFromArgWithFields c opts.BaseRepo opts.SelectorArg
      ["id", "number", "title", "state"] w1 = (.ok (issue, repo), w2))
    (hs : issue.State = "CLOSED") :
    (closeRun env opts st).1 = none ∧
    (closeRun env opts st).2.ErrOut = st.ErrOut ++
      [opts.IOStreams.ColorScheme.Yellow "!" ++ " Issue #" ++ toString issue.Number ++ " (" ++
        issue.Title ++ ") is already closed\n"] ∧
    (closeRun env opts st).2.trace = st.trace ++
      [.HttpClient, .IssueFromArgWithFields c opts.BaseRepo opts.SelectorArg
        ["id", "number", "title", "state"]] ∧
    ((closeRun env opts st).2.trace).countP Call.isCommentPost =
      st.trace.countP Call.isCommentPost ∧
    ((closeRun env opts st).2.trace).countP Call.isCloseTransport =
      st.trace.countP Call.isCloseTransport := by
  simp [closeRun, hc, hr, hs, Run.call, Run.Fprintf, Call.isCommentPost, Call.isCloseTransport]

/-- Witness of C1: the selector "3" resolves to the closed issue #3. -/
theorem closeRun_closed_item_witness :
    (closeRun (exampleEnv none none) (exampleOpts "3" "bye") exampleStart).1 = none ∧
    (closeRun (exampleEnv none none) (exampleOpts "3" "bye") exampleStart).2.ErrOut =
      ["! Issue #3 (Old) is already closed\n"] :=
  have h := closeRun_closed_item (exampleEnv none none) (exampleOpts "3" "bye") exampleStart
    ⟨0⟩ exampleRemote exampleRemote issue3 exampleRepo rfl rfl rfl
  ⟨h.1, h.2.1.trans (by decide)⟩

/-- C2. For an item that is not closed and a non-empty comment body, when CommentableRun
returns the error e, closeRun returns exactly e, the comment call is the last call of the
trace, no close transport is called and nothing is written to ErrOut. -/
theorem closeRun_comment_fails {σ : Type} (env : Collaborators σ) (opts : CloseOptions σ)
    (st : Run σ) (c : HttpClient) (w1 w2 w3 : σ) (issue : Issue) (repo : Repo) (e : Error)
    (hc : opts.HttpClient st.world = (.ok c, w1))
    (hr : env.IssueFromArgWithFields c opts.BaseRepo opts.SelectorArg
      ["id", "number", "title", "state"] w1 = (.ok (issue, repo), w2))
    (hs : issue.State ≠ "CLOSED")
    (hb : opts.Comment ≠ "")
    (hp : env.CommentableRun (commentOpts opts issue repo) w2 = (some e, w3)) :
    (closeRun env opts st).1 = some e ∧
    (closeRun env opts st).2.ErrOut = st.ErrOut ∧
    (closeRun env opts st).2.trace = st.trace ++
      [.HttpClient, .IssueFromArgWithFields c opts.BaseRepo opts.SelectorArg
        ["id", "number", "title", "state"], .CommentableRun (commentOpts opts issue repo)] ∧
    ((closeRun env opts st).2.trace).countP Call.isCloseTransport =
      st.trace.countP Call.isCloseTransport := by
  simp [closeRun, hc, hr, hs, hb, hp, Run.call, Call.isCloseTransport]

/-- Witness of C2: a comment on the open issue #42 when the comment call fails. -/
theorem closeRun_comment_fails_witness :
    (closeRun (exampleEnv (some "comment failed") none) (exampleOpts "42" "done")
      exampleStart).1 = some "comment failed" ∧
    (closeRun (exampleEnv (some "comment failed") none) (exampleOpts "42" "done")
      exampleStart).2.ErrOut = [] :=
  have h := closeRun_comment_fails (exampleEnv (some "comment failed") none)
    (exampleOpts "42" "done") exampleStart ⟨0⟩ exampleRemote exampleRemote exampleRemote
    issue42 exampleRepo "comment failed" rfl rfl (by decide) (by decide) rfl
  ⟨h.1, h.2.1⟩

/-- C3. apiClose makes exactly one call. For a pull-request-like item it is the call of
PullRequestClose and no mutation; for any other item it is the mutation "IssueClose" on the
host of the repository, whose variables are the single entry "input" with IssueID = item.ID
and whose selection asks back for one field only, the ID of the issue of closeIssue. The
error apiClose returns is the one that call returns. -/
theorem apiClose_dispatch {σ : Type} (env : Collaborators σ) (c : HttpClient) (repo : Repo)
    (issue : Issue) (st : Run σ) :
    (apiClose env c repo issue st).2.trace = st.trace ++
      [if issue.IsPullRequest then Call.PullRequestClose c repo issue.ID
        else Call.Mutate c repo.RepoHost "IssueClose" mutation
          [("input", { IssueID := issue.ID })]] ∧
    (apiClose env c repo issue st).1 =
      (if issue.IsPullRequest then (env.PullRequestClose c repo issue.ID st.world).1
        else (env.Mutate c repo.RepoHost "IssueClose" mutation
          [("input", { IssueID := issue.ID })] st.world).1) ∧
    mutation = GoType.struct [("CloseIssue", some "closeIssue(input: $input)",
      GoType.struct [("Issue", none, GoType.struct [("ID", none, GoType.ID)])])] ∧
    mutation.leaves = [["CloseIssue", "Issue", "ID"]] := by
  refine ⟨?_, ?_, rfl, by decide⟩
  · cases h : issue.IsPullRequest <;> simp [apiClose, h, Run.call, mutationVariables]
  · cases h : issue.IsPullRequest <;> simp [apiClose, h, mutationVariables]

/-- C4. For an item that is not closed and a non-empty comment body for which CommentableRun
succeeds, closeRun calls CommentableRun exactly once, with Body equal to the comment, Quiet
true and a RetrieveCommentable that yields the resolved item and repository, and that call
stands in the trace right before the single close-transport call, which is the last call. -/
theorem closeRun_comment_then_close {σ : Type} (env : Collaborators σ) (opts : CloseOptions σ)
    (st : Run σ) (c : HttpClient) (w1 w2 w3 : σ) (issue : Issue) (repo : Repo)
    (hc : opts.HttpClient st.world = (.ok c, w1))
    (hr : env.IssueFromArgWithFields c opts.BaseRepo opts.SelectorArg
      ["id", "number", "title", "state"] w1 = (.ok (issue, repo), w2))
    (hs : issue.State ≠ "CLOSED")
    (hb : opts.Comment ≠ "")
    (hp : env.CommentableRun (commentOpts opts issue repo) w2 = (none, w3)) :
    (commentOpts opts issue repo).Body = opts.Comment ∧
    (commentOpts opts issue repo).Quiet = true ∧
    (commentOpts opts issue repo).RetrieveCommentable () = .ok (issue, repo) ∧
    (closeRun env opts st).2.trace = st.trace ++
      [.HttpClient, .IssueFromArgWithFields c opts.BaseRepo opts.SelectorArg
        ["id", "number", "title", "state"], .CommentableRun (commentOpts opts issue repo),
        if issue.IsPullRequest then Call.PullRequestClose c repo issue.ID
        else Call.Mutate c repo.RepoHost "IssueClose" mutation
          [("input", { IssueID := issue.ID })]] ∧
    ((closeRun env opts st).2.trace).countP Call.isCommentPost =
      st.trace.countP Call.isCommentPost + 1 ∧
    ((closeRun env opts st).2.trace).countP Call.isCloseTransport =
      st.trace.countP Call.isCloseTransport + 1 := by
  refine ⟨rfl, rfl, rfl, ?_⟩
  cases h : issue.IsPullRequest <;>
    cases h4 : (env.Mutate c repo.RepoHost "IssueClose" mutation
      [("input", { IssueID := issue.ID })] w3).1 <;>
    cases h5 : (env.PullRequestClose c repo issue.ID w3).1 <;>
    simp [closeRun, hc, hr, hs, hb, hp, apiClose, h, h4, h5, Run.call, Run.Fprintf,
      Call.isCommentPost, Call.isCloseTransport, mutationVariables, List.countP_append,
      List.countP_cons]

/-- Witness of C4: the open pull request #7 closed with the comment "done". -/
theorem closeRun_comment_then_close_witness :
    (commentOpts (exampleOpts "7" "done") pr7 exampleRepo).Body = "done" ∧
    (closeRun (exampleEnv none none) (exampleOpts "7" "done") exampleStart).2.trace =
      [.HttpClient, .IssueFromArgWithFields ⟨0⟩ (exampleOpts "7" "done").BaseRepo "7"
        ["id", "number", "title", "state"],
        .CommentableRun (commentOpts (exampleOpts "7" "done") pr7 exampleRepo),
        .PullRequestClose ⟨0⟩ exampleRepo "PR_7"] :=
  have h := closeRun_comment_then_close (exampleEnv none none) (exampleOpts "7" "done")
    exampleStart ⟨0⟩ exampleRemote exampleRemote
    { exampleRemote with comments := [("PR_7", "done")] } pr7 exampleRepo
    rfl rfl (by decide) (by decide) rfl
  ⟨h.1, h.2.2.2.1⟩

/-- C5. For an item that is not closed and an empty comment body, closeRun calls the close
transport exactly once, as the last call, and never calls CommentableRun, whatever the close
transport returns. -/
theorem closeRun_no_comment {σ : Type} (env : Collaborators σ) (opts : CloseOptions σ)
    (st : Run σ) (c : HttpClient) (w1 w2 : σ) (issue : Issue) (repo : Repo)
    (hc : opts.HttpClient st.world = (.ok c, w1))
    (hr : env.IssueFromArgWithFields c opts.BaseRepo opts.SelectorArg
      ["id", "number", "title", "state"] w1 = (.ok (issue, repo), w2))
    (hs : issue.State ≠ "CLOSED")
    (hb : opts.Comment = "") :
    (closeRun env opts st).2.trace = st.trace ++
      [.HttpClient, .IssueFromArgWithFields c opts.BaseRepo opts.SelectorArg
        ["id", "number", "title", "state"],
        if issue.IsPullRequest then Call.PullRequestClose c repo issue.ID
        else Call.Mutate c repo.RepoHost "IssueClose" mutation
          [("input", { IssueID := issue.ID })]] ∧
    ((closeRun env opts st).2.trace).countP Call.isCloseTransport =
      st.trace.countP Call.isCloseTransport + 1 ∧
    ((closeRun env opts st).2.trace).countP Call.isCommentPost =
      st.trace.countP Call.isCommentPost := by
  cases h : issue.IsPullRequest <;>
    cases h4 : (env.Mutate c repo.RepoHost "IssueClose" mutation
      [("input", { IssueID := issue.ID })] w2).1 <;>
    cases h5 : (env.PullRequestClose c repo issue.ID w2).1 <;>
    simp [closeRun, hc, hr, hs, hb, apiClose, h, h4, h5, Run.call, Run.Fprintf,
      Call.isCommentPost, Call.isCloseTransport, mutationVariables, List.countP_append,
      List.countP_cons]

/-- Witness of C5: the open issue #42 closed without a comment. -/
theorem closeRun_no_comment_witness :
    (closeRun (exampleEnv none none) (exampleOpts "42" "") exampleStart).2.trace =
      [.HttpClient, .IssueFromArgWithFields ⟨0⟩ (exampleOpts "42" "").BaseRepo "42"
        ["id", "number", "title", "state"],
        .Mutate ⟨0⟩ "github.com" "IssueClose" mutation [("input", { IssueID := "I_42" })]] :=
  (closeRun_no_comment (exampleEnv none none) (exampleOpts "42" "") exampleStart ⟨0⟩
    exampleRemote exampleRemote issue42 exampleRepo rfl rfl (by decide) rfl).1

/-- C6. When IssueFromArgWithFields fails with the error e, closeRun returns exactly e,
writes nothing to ErrOut, and the resolver call is the last call: no comment-post call and
no close-transport call is made. -/
theorem closeRun_resolver_fails {σ : Type} (env : Collaborators σ) (opts : CloseOptions σ)
    (st : Run σ) (c : HttpClient) (w1 w2 : σ) (e : Error)
    (hc : opts.HttpClient st.world = (.ok c, w1))
    (hr : env.IssueFromArgWithFields c opts.BaseRepo opts.SelectorArg
      ["id", "number", "title", "state"] w1 = (.error e, w2)) :
    (closeRun env opts st).1 = some e ∧
    (closeRun env opts st).2.ErrOut = st.ErrOut ∧
    (closeRun env opts st).2.trace = st.trace ++
      [.HttpClient, .IssueFromArgWithFields c opts.BaseRepo opts.SelectorArg
        ["id", "number", "title", "state"]] ∧
    ((closeRun env opts st).2.trace).countP Call.isCommentPost =
      st.trace.countP Call.isCommentPost ∧
    ((closeRun env opts st).2.trace).countP Call.isCloseTransport =
      st.trace.countP Call.isCloseTransport := by
  simp [closeRun, hc, hr, Run.call, Call.isCommentPost, Call.isCloseTransport]

/-- Witness of C6: the selector "99" names no item. -/
theorem closeRun_resolver_fails_witness :
    (closeRun (exampleEnv none none) (exampleOpts "99" "done") exampleStart).1 =
      some "issue not found" ∧
    (closeRun (exampleEnv none none) (exampleOpts "99" "done") exampleStart).2.ErrOut = [] :=
  have h := closeRun_resolver_fails (exampleEnv none none) (exampleOpts "99" "done")
    exampleStart ⟨0⟩ exampleRemote exampleRemote "issue not found" rfl rfl
  ⟨h.1, h.2.1⟩

/-- C7. For an item that is not closed, when the comment step (if any) succeeded and the
close transport fails with the error e, closeRun returns exactly e and writes nothing to
ErrOut; the failed close call is the last call of the trace, it is the only close call, and
the only comment call is the one made before it (none when the comment body is empty). -/
theorem closeRun_close_fails {σ : Type} (env : Collaborators σ) (opts : CloseOptions σ)
    (st : Run σ) (c : HttpClient) (w1 w2 w3 w4 : σ) (issue : Issue) (repo : Repo) (e : Error)
    (hc : opts.HttpClient st.world = (.ok c, w1))
    (hr : env.IssueFromArgWithFields c opts.BaseRepo opts.SelectorArg
      ["id", "number", "title", "state"] w1 = (.ok (issue, repo), w2))
    (hs : issue.State ≠ "CLOSED")
    (hp : (if opts.Comment ≠ "" then env.CommentableRun (commentOpts opts issue repo) w2
      else (none, w2)) = (none, w3))
    (hx : (if issue.IsPullRequest then env.PullRequestClose c repo issue.ID w3
      else env.Mutate c repo.RepoHost "IssueClose" mutation
        [("input", { IssueID := issue.ID })] w3) = (some e, w4)) :
    (closeRun env opts st).1 = some e ∧
    (closeRun env opts st).2.ErrOut = st.ErrOut ∧
    (closeRun env opts st).2.trace = st.trace ++
      [.HttpClient, .IssueFromArgWithFields c opts.BaseRepo opts.SelectorArg
        ["id", "number", "title", "state"]] ++
      (if opts.Comment ≠ "" then [.CommentableRun (commentOpts opts issue repo)] else []) ++
      [if issue.IsPullRequest then Call.PullRequestClose c repo issue.ID
        else Call.Mutate c repo.RepoHost "IssueClose" mutation
          [("input", { IssueID := issue.ID })]] ∧
    ((closeRun env opts st).2.trace).countP Call.isCloseTransport =
      st.trace.countP Call.isCloseTransport + 1 ∧
    ((closeRun env opts st).2.trace).countP Call.isCommentPost =
      st.trace.countP Call.isCommentPost + (if opts.Comment ≠ "" then 1 else 0) := by
  rw [closeRun_open_eq env opts st c w1 w2 w3 w4 issue repo (some e) hc hr hs hp hx]
  by_cases hb : opts.Comment = "" <;> cases hk : issue.IsPullRequest <;>
    simp [hb, Call.isCommentPost, Call.isCloseTransport, List.countP_append, List.countP_cons]

/-- Witness of C7: the comment on the open issue #42 is posted and the close call fails. -/
theorem closeRun_close_fails_witness :
    (closeRun (exampleEnv none (some "close failed")) (exampleOpts "42" "done")
      exampleStart).1 = some "close failed" ∧
    (closeRun (exampleEnv none (some "close failed")) (exampleOpts "42" "done")
      exampleStart).2.ErrOut = [] ∧
    (closeRun (exampleEnv none (some "close failed")) (exampleOpts "42" "done")
      exampleStart).2.world.comments = [("I_42", "done")] :=
  have h := closeRun_close_fails (exampleEnv none (some "close failed"))
    (exampleOpts "42" "done") exampleStart ⟨0⟩ exampleRemote exampleRemote
    { exampleRemote with comments := [("I_42", "done")] }
    { exampleRemote with comments := [("I_42", "done")] } issue42 exampleRepo "close failed"
    rfl rfl (by decide) rfl rfl
  ⟨h.1, h.2.1, rfl⟩

/-- Counterexample to C8: the open issue #42 is closed once with the comment "done" and once
with no comment, every call succeeding. The comment is posted in the first run only, and the
two runs return the same value and write the same line. -/
theorem closeRun_outcome_not_distinct :
    ((closeRun (exampleEnv none none) (exampleOpts "42" "done") exampleStart).2.trace).countP
      Call.isCommentPost = 1 ∧
    ((closeRun (exampleEnv none none) (exampleOpts "42" "") exampleStart).2.trace).countP
      Call.isCommentPost = 0 ∧
    (closeRun (exampleEnv none none) (exampleOpts "42" "done") exampleStart).1 =
      (closeRun (exampleEnv none none) (exampleOpts "42" "") exampleStart).1 ∧
    (closeRun (exampleEnv none none) (exampleOpts "42" "done") exampleStart).2.ErrOut =
      (closeRun (exampleEnv none none) (exampleOpts "42" "") exampleStart).2.ErrOut ∧
    (closeRun (exampleEnv none none) (exampleOpts "42" "done") exampleStart).1 = none ∧
    (closeRun (exampleEnv none none) (exampleOpts "42" "") exampleStart).1 = none ∧
    (closeRun (exampleEnv none none) (exampleOpts "42" "done") exampleStart).2.ErrOut =
      ["✓ Closed issue #42 (Fix bug)\n"] ∧
    (closeRun (exampleEnv none none) (exampleOpts "42" "") exampleStart).2.ErrOut =
      ["✓ Closed issue #42 (Fix bug)\n"] := by
  refine ⟨by decide, by decide, by decide, by decide, by decide, by decide, by decide,
    by decide⟩

/-- C8, amended. For an item that is not closed, when the comment step (if any) and the close
transport succeed, closeRun returns nil and writes exactly one line to ErrOut, the success
icon followed by " Closed issue #", the number, " (", the title and ")": the returned value
and the line do not depend on whether a comment was posted. -/
theorem closeRun_success_line {σ : Type} (env : Collaborators σ) (opts : CloseOptions σ)
    (st : Run σ) (c : HttpClient) (w1 w2 w3 w4 : σ) (issue : Issue) (repo : Repo)
    (hc : opts.HttpClient st.world = (.ok c, w1))
    (hr : env.IssueFromArgWithFields c opts.BaseRepo opts.SelectorArg
      ["id", "number", "title", "state"] w1 = (.ok (issue, repo), w2))
    (hs : issue.State ≠ "CLOSED")
    (hp : (if opts.Comment ≠ "" then env.CommentableRun (commentOpts opts issue repo) w2
      else (none, w2)) = (none, w3))
    (hx : (if issue.IsPullRequest then env.PullRequestClose c repo issue.ID w3
      else env.Mutate c repo.RepoHost "IssueClose" mutation
        [("input", { IssueID := issue.ID })] w3) = (none, w4)) :
    (closeRun env opts st).1 = none ∧
    (closeRun env opts st).2.ErrOut = st.ErrOut ++
      [opts.IOStreams.ColorScheme.SuccessIconWithColor opts.IOStreams.ColorScheme.Red ++
        " Closed issue #" ++ toString issue.Number ++ " (" ++ issue.Title ++ ")\n"] := by
  rw [closeRun_open_eq env opts st c w1 w2 w3 w4 issue repo none hc hr hs hp hx]
  simp

/-- Witness of C8, amended: the open pull request #7 closed with the comment "done". -/
theorem closeRun_success_line_witness :
    (closeRun (exampleEnv none none) (exampleOpts "7" "done") exampleStart).1 = none ∧
    (closeRun (exampleEnv none none) (exampleOpts "7" "done") exampleStart).2.ErrOut =
      ["✓ Closed issue #7 (Add feature)\n"] :=
  have h := closeRun_success_line (exampleEnv none none) (exampleOpts "7" "done") exampleStart
    ⟨0⟩ exampleRemote exampleRemote { exampleRemote with comments := [("PR_7", "done")] }
    (Remote.close { exampleRemote with comments := [("PR_7", "done")] } "PR_7")
    pr7 exampleRepo rfl rfl (by decide) rfl rfl
  ⟨h.1, h.2.trans (by decide)⟩

/-- C9. Two runs of closeRun in sequence, with no comment, on an item that is not closed,
over a remote service in which the successful close makes the resolver report the same item
with state "CLOSED": the first run returns nil and writes the "Closed issue" line, the second
returns nil and writes the "is already closed" line, the second run makes no close call, and
the close transport is called exactly once over the two runs. -/
theorem closeRun_twice {σ : Type} (env : Collaborators σ) (opts : CloseOptions σ)
    (st : Run σ) (c c2 : HttpClient) (w1 w2 w3 w4 w5 : σ) (issue : Issue) (repo repo2 : Repo)
    (hc : opts.HttpClient st.world = (.ok c, w1))
    (hr : env.IssueFromArgWithFields c opts.BaseRepo opts.SelectorArg
      ["id", "number", "title", "state"] w1 = (.ok (issue, repo), w2))
    (hs : issue.State ≠ "CLOSED")
    (hb : opts.Comment = "")
    (hx : (if issue.IsPullRequest then env.PullRequestClose c repo issue.ID w2
      else env.Mutate c repo.RepoHost "IssueClose" mutation
        [("input", { IssueID := issue.ID })] w2) = (none, w3))
    (hc2 : opts.HttpClient w3 = (.ok c2, w4))
    (hr2 : env.IssueFromArgWithFields c2 opts.BaseRepo opts.SelectorArg
      ["id", "number", "title", "state"] w4 =
        (.ok ({ issue with State := "CLOSED" }, repo2), w5)) :
    (closeRun env opts st).1 = none ∧
    (closeRun env opts st).2.ErrOut = st.ErrOut ++
      [opts.IOStreams.ColorScheme.SuccessIconWithColor opts.IOStreams.ColorScheme.Red ++
        " Closed issue #" ++ toString issue.Number ++ " (" ++ issue.Title ++ ")\n"] ∧
    (closeRun env opts (closeRun env opts st).2).1 = none ∧
    (closeRun env opts (closeRun env opts st).2).2.ErrOut = (closeRun env opts st).2.ErrOut ++
      [opts.IOStreams.ColorScheme.Yellow "!" ++ " Issue #" ++ toString issue.Number ++ " (" ++
        issue.Title ++ ") is already closed\n"] ∧
    ((closeRun env opts (closeRun env opts st).2).2.trace).countP Call.isCloseTransport =
      ((closeRun env opts st).2.trace).countP Call.isCloseTransport ∧
    ((closeRun env opts (closeRun env opts st).2).2.trace).countP Call.isCloseTransport =
      st.trace.countP Call.isCloseTransport + 1 := by
  have hp : (if opts.Comment ≠ "" then env.CommentableRun (commentOpts opts issue repo) w2
      else (none, w2)) = (none, w2) := by simp [hb]
  have h1 := closeRun_open_eq env opts st c w1 w2 w2 w3 issue repo none hc hr hs hp hx
  have h2 := closeRun_closed_eq env opts (closeRun env opts st).2 c2 w4 w5
    { issue with State := "CLOSED" } repo2 (by rw [h1]; exact hc2) hr2 rfl
  rw [h2, h1]
  cases hk : issue.IsPullRequest <;>
    simp [hb, Call.isCloseTransport, List.countP_append, List.countP_cons]

/-- Witness of C9: the open issue #42 closed twice over the example remote service, where a
close sets the state of the item to "CLOSED". -/
theorem closeRun_twice_witness :
    (closeRun (exampleEnv none none) (exampleOpts "42" "") exampleStart).1 = none ∧
    (closeRun (exampleEnv none none) (exampleOpts "42" "")
      (closeRun (exampleEnv none none) (exampleOpts "42" "") exampleStart).2).1 = none ∧
    (closeRun (exampleEnv none none) (exampleOpts "42" "")
      (closeRun (exampleEnv none none) (exampleOpts "42" "") exampleStart).2).2.ErrOut =
      ["✓ Closed issue #42 (Fix bug)\n", "! Issue #42 (Fix bug) is already closed\n"] ∧
    ((closeRun (exampleEnv none none) (exampleOpts "42" "")
      (closeRun (exampleEnv none none) (exampleOpts "42" "") exampleStart).2).2.trace).countP
        Call.isCloseTransport = 1 :=
  have h := closeRun_twice (exampleEnv none none) (exampleOpts "42" "") exampleStart ⟨0⟩ ⟨0⟩
    exampleRemote exampleRemote (exampleRemote.close "I_42") (exampleRemote.close "I_42")
    (exampleRemote.close "I_42") issue42 exampleRepo exampleRepo
    rfl rfl (by decide) rfl rfl rfl rfl
  ⟨h.1, h.2.2.1, by decide, h.2.2.2.2.2⟩

/-- Counterexample to C10: two pull requests of the same repository and the same number 7,
with different identities. apiClose passes the identity, not the number, to PullRequestClose,
so the two close calls differ, and neither carries the number. -/
theorem apiClose_key_is_not_number :
    pr7.IsPullRequest = true ∧ pr7other.IsPullRequest = true ∧
    pr7.Number = 7 ∧ pr7other.Number = 7 ∧
    (apiClose (exampleEnv none none) ⟨0⟩ exampleRepo pr7 exampleStart).2.trace =
      [.PullRequestClose ⟨0⟩ exampleRepo "PR_7"] ∧
    (apiClose (exampleEnv none none) ⟨0⟩ exampleRepo pr7other exampleStart).2.trace =
      [.PullRequestClose ⟨0⟩ exampleRepo "PR_7_other"] ∧
    (apiClose (exampleEnv none none) ⟨0⟩ exampleRepo pr7 exampleStart).2.trace ≠
      (apiClose (exampleEnv none none) ⟨0⟩ exampleRepo pr7other exampleStart).2.trace ∧
    (apiClose (exampleEnv none none) ⟨0⟩ exampleRepo pr7 exampleStart).2.trace ≠
      [.PullRequestClose ⟨0⟩ exampleRepo (toString pr7.Number)] := by
  refine ⟨rfl, rfl, rfl, rfl, rfl, rfl, ?_, ?_⟩
  · intro h
    have h2 : (apiClose (exampleEnv none none) ⟨0⟩ exampleRepo pr7 exampleStart).2.trace =
        [.PullRequestClose ⟨0⟩ exampleRepo "PR_7"] := rfl
    have h3 : (apiClose (exampleEnv none none) ⟨0⟩ exampleRepo pr7other exampleStart).2.trace =
        [.PullRequestClose ⟨0⟩ exampleRepo "PR_7_other"] := rfl
    rw [h2, h3] at h
    simp at h
  · intro h
    have h2 : (apiClose (exampleEnv none none) ⟨0⟩ exampleRepo pr7 exampleStart).2.trace =
        [.PullRequestClose ⟨0⟩ exampleRepo "PR_7"] := rfl
    rw [h2] at h
    simp only [List.cons.injEq, Call.PullRequestClose.injEq, and_true, true_and] at h
    exact absurd h (by decide)

/-- C10, amended. For a pull-request-like item apiClose makes a single call, the call of
PullRequestClose with the HTTP client, the repository and the identity item.ID of the item
(not its number), and returns the error that call returns. -/
theorem apiClose_pullRequest_key {σ : Type} (env : Collaborators σ) (c : HttpClient)
    (repo : Repo) (issue : Issue) (st : Run σ) (h : issue.IsPullRequest = true) :
    (apiClose env c repo issue st).2.trace =
      st.trace ++ [.PullRequestClose c repo issue.ID] ∧
    (apiClose env c repo issue st).1 = (env.PullRequestClose c repo issue.ID st.world).1 ∧
    (apiClose env c repo issue st).2.world =
      (env.PullRequestClose c repo issue.ID st.world).2 := by
  simp [apiClose, h, Run.call]

/-- Witness of C10, amended: the pull request #7 of identity "PR_7". -/
theorem apiClose_pullRequest_key_witness :
    (apiClose (exampleEnv none none) ⟨0⟩ exampleRepo pr7 exampleStart).2.trace =
      [.PullRequestClose ⟨0⟩ exampleRepo "PR_7"] :=
  (apiClose_pullRequest_key (exampleEnv none none) ⟨0⟩ exampleRepo pr7 exampleStart rfl).1

end Close
